import Mathlib

/-!
# Verification of the open-reactor-control-system system MCU firmware core

Shallow embedding of the shared-state synchronization and resilience layer of
src/orc-sys-mcu/src/main.cpp: the wall-clock authority (getGlobalDateTime,
updateGlobalDateTime, manageRTC, the NTP sync path), the network resilience
manager (loadNetworkConfig, saveNetworkConfig, applyNetworkConfig, the loop
link state machine, the configuration API handlers), and the power-rail
health aggregator (managePower).

Hardware and library collaborators (the RTC peripheral, the Ethernet PHY,
the EEPROM, the NTP client, the JSON parser) are modelled as oracle inputs:
each call site that queries them takes the result of that query as an
explicit argument, so that a run of an embedded function corresponds to one
concrete behaviour of the hardware.
-/

namespace ORC

/-- The DateTime record of the firmware (struct DateTime in sys_init.h,
fields as used throughout main.cpp): year, month, day, hour, minute,
second.  Machine fields are uint16_t / uint8_t; values are modelled as Nat
since no arithmetic overflow occurs on these fields in the embedded code. -/
structure DateTime where
  year : Nat
  month : Nat
  day : Nat
  hour : Nat
  minute : Nat
  second : Nat
deriving DecidableEq, Repr

/-- Field-by-field comparison of two DateTime records, exactly the
conjunction checked at main.cpp lines 661-666 inside updateGlobalDateTime. -/
def dtFieldsMatch (a b : DateTime) : Bool :=
  a.year == b.year && a.month == b.month && a.day == b.day &&
  a.hour == b.hour && a.minute == b.minute && a.second == b.second

/-- One attempt of the write-verify loop (main.cpp lines 655-679): the RTC
is written and read back; the read-back outcome of attempt i is the oracle
value readback i (none models a failed rtc.getDateTime, some r a successful
read returning r).  The attempt succeeds when the read succeeded and the
value matches dt field by field. -/
def attemptMatches (readback : Nat → Option DateTime) (dt : DateTime)
    (i : Nat) : Bool :=
  match readback i with
  | some r => dtFieldsMatch r dt
  | none => false

/-- The write-verify retry loop of updateGlobalDateTime (main.cpp lines
651-684): attempts are made in order starting at attempt i, breaking out at
the first success (the break of the source loop is the short-circuit of the
disjunction); after fuel attempts without a match the loop reports failure.
The source fixes fuel = maxRetries = 3. -/
def rtcVerifyLoop (readback : Nat → Option DateTime) (dt : DateTime) :
    Nat → Nat → Bool
  | _, 0 => false
  | i, fuel + 1 =>
    attemptMatches readback dt i || rtcVerifyLoop readback dt (i + 1) fuel

/-- updateGlobalDateTime (main.cpp lines 645-700).  lockOk is the outcome of
the 100 ms timed acquisition of dateTimeMutex; readback is the RTC oracle; dt
is the requested value and g the pre-call canonical globalDateTime.  Returns
the post-call globalDateTime and the Boolean result of the function.  The
canonical record is overwritten with dt exactly when some read-back within
the 3 attempts matches dt field by field. -/
def updateGlobalDateTime (lockOk : Bool) (readback : Nat → Option DateTime)
    (dt g : DateTime) : DateTime × Bool :=
  if lockOk then
    if rtcVerifyLoop readback dt 0 3 then (dt, true) else (g, false)
  else (g, false)

/-- getGlobalDateTime (main.cpp lines 633-642): under the 100 ms timed lock,
copy the whole canonical record; on lock timeout report failure and leave the
out-parameter untouched. -/
def getGlobalDateTime (lockOk : Bool) (g dtOut : DateTime) :
    DateTime × Bool :=
  if lockOk then (g, true) else (dtOut, false)

/-- Range invariant on a DateTime claimed by the specification: year in
2000-2099, month 1-12, day 1-31, hour 0-23, minute and second 0-59.  The
lower bounds on hour, minute, second are automatic for Nat fields. -/
def validDT (d : DateTime) : Bool :=
  2000 ≤ d.year && d.year ≤ 2099 && 1 ≤ d.month && d.month ≤ 12 &&
  1 ≤ d.day && d.day ≤ 31 && d.hour ≤ 23 && d.minute ≤ 59 && d.second ≤ 59

/-- epochToDateTime (main.cpp lines 33-44) converts epoch seconds to a
DateTime through gmtime.  gmtime is C library code; for nonnegative epochs
it is the standard civil-from-days calendar algorithm, reproduced here on
Nat (all subtractions below are nonnegative on every input). -/
def epochToDateTime (epoch : Nat) : DateTime :=
  let days := epoch / 86400
  let secs := epoch % 86400
  let z := days + 719468
  let era := z / 146097
  let doe := z % 146097
  let yoe := (doe - doe / 1460 + doe / 36524 - doe / 146096) / 365
  let y := yoe + era * 400
  let doy := doe - (365 * yoe + yoe / 4 - yoe / 100)
  let mp := (5 * doy + 2) / 153
  let d := doy - (153 * mp + 2) / 5 + 1
  let m := if mp < 10 then mp + 3 else mp - 9
  let yr := if m ≤ 2 then y + 1 else y
  { year := yr, month := m, day := d,
    hour := secs / 3600, minute := secs % 3600 / 60, second := secs % 60 }

/-- One iteration of the manageRTC task loop (main.cpp lines 956-969):
rtcRead is the oracle outcome of rtc.getDateTime, lockOk the outcome of the
100 ms timed acquisition of dateTimeMutex; on a successful read and lock the
hardware value overwrites the canonical globalDateTime unconditionally, with
no range validation. -/
def manageRTCtick (rtcRead : Option DateTime) (lockOk : Bool)
    (g : DateTime) : DateTime :=
  match rtcRead with
  | some t => if lockOk then t else g
  | none => g

/-- Unsigned 32-bit subtraction, as computed by millis() arithmetic on
uint32_t at main.cpp line 103. -/
def u32sub (a b : Nat) : Nat :=
  (a + (2 ^ 32 - b % 2 ^ 32)) % 2 ^ 32

/-- Rate-limit constants NTP_UPDATE_INTERVAL and NTP_MIN_SYNC_INTERVAL.
Modelled from the spec: the constants are defined in sys_init.h, which is
not part of the available sources; the spec (section 4.2) names a desired
resync interval and a hard minimum interval without fixing values, so they
are carried as parameters. -/
structure NtpConsts where
  updateInterval : Nat
  minSyncInterval : Nat
deriving DecidableEq, Repr

/-- handleNTPUpdates (main.cpp lines 100-115) combined with the link gate of
ntpUpdate (line 60).  ts is the stored ntpUpdateTimestamp, now the millis()
value read at line 103 and tAfter the millis() value read at line 113 after
ntpUpdate returns.  Returns the new ntpUpdateTimestamp and whether any
remote fetch (a timeClient.update call inside ntpUpdate) was performed;
ntpUpdate performs its first fetch exactly when the link is up, and when the
link is down it returns before any fetch.  Note that line 113 stores the new
timestamp unconditionally after ntpUpdate returns, whether or not ntpUpdate
fetched anything. -/
def handleNTPUpdates (k : NtpConsts) (ntpEnabled linkUp forceUpdate : Bool)
    (ts now tAfter : Nat) : Nat × Bool :=
  if !ntpEnabled then (ts, false)
  else
    let timeSinceLastUpdate := u32sub now ts
    if timeSinceLastUpdate > k.updateInterval || forceUpdate then
      if timeSinceLastUpdate < k.minSyncInterval then (ts, false)
      else (tAfter, linkUp)
    else (ts, false)

/-- An IPv4 address as four octets (the IPAddress library type). -/
structure IPAddr where
  o0 : Nat
  o1 : Nat
  o2 : Nat
  o3 : Nat
deriving DecidableEq, Repr

/-- The NetworkConfig record (declared in sys_init.h, fields exactly as
read and written throughout main.cpp).  Fixed-size char arrays are modelled
as String (strlcpy truncation to the array size is not exercised by any
claim). -/
structure NetworkConfig where
  useDHCP : Bool
  ip : IPAddr
  subnet : IPAddr
  gateway : IPAddr
  dns : IPAddr
  timezone : String
  hostname : String
  ntpServer : String
  ntpEnabled : Bool
  dstEnabled : Bool
  mqttBroker : String
  mqttPort : Nat
  mqttUsername : String
  mqttPassword : String
deriving DecidableEq, Repr

/-- The persisted EEPROM image relevant to the configuration record: the
guard byte at offset 0 and the NetworkConfig stored at
EE_NETWORK_CONFIG_ADDRESS. -/
structure Eeprom where
  magic : Nat
  stored : NetworkConfig
deriving DecidableEq, Repr

/-- loadNetworkConfig (main.cpp lines 132-143): reads the guard byte, and
only if it equals the expected magic constant copies the stored record into
the live configuration; a mismatch reports no valid configuration (false in
the source, none here) and leaves the live record alone.  eeMagic is the
EE_MAGIC_NUMBER constant from sys_init.h, carried as a parameter. -/
def loadNetworkConfig (eeMagic : Nat) (ee : Eeprom) : Option NetworkConfig :=
  if ee.magic == eeMagic then some ee.stored else none

/-- saveNetworkConfig (main.cpp lines 146-155): writes the live record to
the EEPROM and sets the guard byte to the magic constant. -/
def saveNetworkConfig (eeMagic : Nat) (cfg : NetworkConfig) : Eeprom :=
  { magic := eeMagic, stored := cfg }

/-- The default configuration installed by setupEthernet when the load
fails (main.cpp lines 188-198).  Only the listed fields are assigned; the
MQTT fields and any other residue of the live record are left as they
were. -/
def defaultNetworkConfig (c : NetworkConfig) : NetworkConfig :=
  { c with
    ntpEnabled := false
    useDHCP := true
    ip := ⟨192, 168, 1, 100⟩
    subnet := ⟨255, 255, 255, 0⟩
    gateway := ⟨192, 168, 1, 1⟩
    dns := ⟨8, 8, 8, 8⟩
    timezone := "+13:00"
    hostname := "open-reactor"
    ntpServer := "pool.ntp.org"
    dstEnabled := false }

/-- The configuration phase of setupEthernet (main.cpp lines 184-200):
load the stored configuration; on failure install the defaults into the
live record and immediately persist them.  Returns the live record and the
EEPROM image after the phase. -/
def setupEthernetConfigPhase (eeMagic : Nat) (ee : Eeprom)
    (live : NetworkConfig) : NetworkConfig × Eeprom :=
  match loadNetworkConfig eeMagic ee with
  | some cfg => (cfg, ee)
  | none =>
    let d := defaultNetworkConfig live
    (d, saveNetworkConfig eeMagic d)

/-- A parsed POST /api/network request body (main.cpp lines 280-343).  The
JSON library and IPAddress.fromString are library code; each field carries
the outcome of the corresponding extraction at its call site: for the four
address strings, the outcome of fromString (none when the string fails to
parse). -/
structure NetworkPostRequest where
  hasBody : Bool
  jsonOk : Bool
  modeIsDhcp : Bool
  ipParse : Option IPAddr
  subnetParse : Option IPAddr
  gatewayParse : Option IPAddr
  dnsParse : Option IPAddr
  hostnameField : Option String
  ntpField : Option String
  dstField : Option Bool
deriving Repr

/-- Result of the POST /api/network handler: the live configuration, the
EEPROM image, the HTTP status sent, and whether the device rebooted. -/
structure NetworkPostResult where
  live : NetworkConfig
  ee : Eeprom
  httpStatus : Nat
  rebooted : Bool
deriving Repr

/-- The static-address validation block (main.cpp lines 300-323): the four
fromString calls are made in order ip, subnet, gateway, dns, each assigning
its parsed value into the live record on success, and the handler returns
400 at the first failure.  Returns the (possibly partially updated) record
and whether all four fields parsed. -/
def applyStaticAddresses (req : NetworkPostRequest) (c : NetworkConfig) :
    NetworkConfig × Bool :=
  match req.ipParse with
  | none => (c, false)
  | some ipv =>
    let c1 := { c with ip := ipv }
    match req.subnetParse with
    | none => (c1, false)
    | some snv =>
      let c2 := { c1 with subnet := snv }
      match req.gatewayParse with
      | none => (c2, false)
      | some gwv =>
        let c3 := { c2 with gateway := gwv }
        match req.dnsParse with
        | none => (c3, false)
        | some dnsv => ({ c3 with dns := dnsv }, true)

/-- The POST /api/network handler (main.cpp lines 280-343).  Note the order
of operations in the source: networkConfig.useDHCP is assigned at line 298
before any address validation, and the address fields are parsed directly
into the live record, so a validation failure leaves the live record
partially mutated; only the EEPROM is untouched until saveNetworkConfig at
line 335. -/
def networkPostHandler (eeMagic : Nat) (req : NetworkPostRequest)
    (cfg : NetworkConfig) (ee : Eeprom) : NetworkPostResult :=
  if !req.hasBody then ⟨cfg, ee, 400, false⟩
  else if !req.jsonOk then ⟨cfg, ee, 400, false⟩
  else
    let c0 := { cfg with useDHCP := req.modeIsDhcp }
    let staticStep :=
      if !c0.useDHCP then applyStaticAddresses req c0 else (c0, true)
    match staticStep with
    | (c1, false) => ⟨c1, ee, 400, false⟩
    | (c1, true) =>
      let c2 := { c1 with
        hostname := req.hostnameField.getD "open-reactor"
        ntpServer := req.ntpField.getD "pool.ntp.org"
        dstEnabled := req.dstField.getD false }
      ⟨c2, saveNetworkConfig eeMagic c2, 200, true⟩

/-- A parsed POST /api/mqtt request body (main.cpp lines 362-394); each
field is the outcome of the corresponding JSON extraction (none when the
key is absent or not of the expected type, in which case the source takes
the default of the | operator). -/
structure MqttPostRequest where
  hasBody : Bool
  jsonOk : Bool
  mqttBroker : Option String
  mqttPort : Option Nat
  mqttUsername : Option String
  mqttPassword : Option String
deriving Repr

/-- Result of the POST /api/mqtt handler. -/
structure MqttPostResult where
  live : NetworkConfig
  ee : Eeprom
  httpStatus : Nat
deriving Repr

/-- The POST /api/mqtt handler (main.cpp lines 362-394): broker, port and
username are always assigned (with defaults empty string and 1883); the
password is assigned only when a nonempty password string is provided
(lines 382-385); then the configuration is persisted and 200 returned. -/
def mqttPostHandler (eeMagic : Nat) (req : MqttPostRequest)
    (cfg : NetworkConfig) (ee : Eeprom) : MqttPostResult :=
  if !req.hasBody then ⟨cfg, ee, 400⟩
  else if !req.jsonOk then ⟨cfg, ee, 400⟩
  else
    let c1 := { cfg with
      mqttBroker := req.mqttBroker.getD ""
      mqttPort := req.mqttPort.getD 1883
      mqttUsername := req.mqttUsername.getD "" }
    let newPassword := req.mqttPassword.getD ""
    let c2 :=
      if newPassword.length > 0 then { c1 with mqttPassword := newPassword }
      else c1
    ⟨c2, saveNetworkConfig eeMagic c2, 200⟩

/-- A parsed POST /api/time request body (main.cpp lines 426-510).
timezoneParse is none when the timezone key is absent, some none when
sscanf fails to parse two integers, some (some (h, m)) on a parse;
dateParse and timeParse are the sscanf outcomes for the date and time
strings (none when fewer items than required were converted). -/
structure TimePostRequest where
  jsonOk : Bool
  hasDate : Bool
  hasTime : Bool
  timezoneParse : Option (Option (Int × Int))
  ntpEnabledReq : Option Bool
  dstEnabledReq : Option Bool
  dateParse : Option (Nat × Nat × Nat)
  timeParse : Option (Nat × Nat)
deriving Repr

/-- The manual time-set path of the POST /api/time handler (main.cpp lines
426-510), projected onto the value it passes to updateGlobalDateTime:
returns some d when control reaches the updateGlobalDateTime call at line
505 with argument d, and none on every early return (invalid JSON, missing
fields, invalid timezone, the NTP-enabled early return at line 474, or
date/time validation failure at lines 490-502).  The committed second field
is the literal 0 of line 504. -/
def timePostHandler (req : TimePostRequest) : Option DateTime :=
  if !req.jsonOk then none
  else if !(req.hasDate && req.hasTime) then none
  else
    let tzOk :=
      match req.timezoneParse with
      | none => true
      | some none => false
      | some (some (h, m)) =>
        !(h < -12 || h > 14 || m < 0 || m > 59)
    if !tzOk then none
    else
      if req.ntpEnabledReq = some true then none
      else
        match req.dateParse with
        | none => none
        | some (y, mo, d) =>
          if y < 2000 || y > 2099 || mo < 1 || mo > 12 || d < 1 || d > 31
          then none
          else
            match req.timeParse with
            | none => none
            | some (h, mi) =>
              if h > 23 || mi > 59 then none
              else some ⟨y, mo, d, h, mi, 0⟩

/-- The observable effects of one iteration of the core-0 loop link logic
(main.cpp lines 817-844): the new ethernetConnected flag, whether
applyNetworkConfig was invoked and its result, and whether the web server
and NTP routines were serviced this iteration. -/
structure LoopEffects where
  ethernetConnected : Bool
  applyCalled : Bool
  applyOk : Bool
  webServed : Bool
  ntpServiced : Bool
deriving DecidableEq, Repr

/-- One iteration of loop() (main.cpp lines 817-844).  connected is the
current ethernetConnected flag, linkOn the polled eth.linkStatus, and
applyResult the oracle outcome of applyNetworkConfig if it is called.  In
the disconnected-with-link branch (lines 832-842) the source assigns
ethernetConnected = true at line 833 before calling applyNetworkConfig, and
a failed apply only logs an error: the flag remains true. -/
def loopStep (connected linkOn applyResult : Bool) : LoopEffects :=
  if connected then
    if !linkOn then ⟨false, false, false, false, false⟩
    else ⟨true, false, false, true, true⟩
  else
    if linkOn then ⟨true, true, applyResult, false, false⟩
    else ⟨false, false, false, false, false⟩

/-- The ethernetConnected flag after a sequence of loop iterations, each
given by the polled link status and the applyNetworkConfig oracle for that
iteration. -/
def loopRun (connected : Bool) : List (Bool × Bool) → Bool
  | [] => connected
  | (linkOn, applyResult) :: rest =>
    loopRun (loopStep connected linkOn applyResult).ethernetConnected rest

/-- The classification of one averaged power-rail reading against its
[min, max] band, together with the previous health flag, as in managePower
(main.cpp lines 1035-1049 for the three rails): out of band clears the
flag and logs a warning only when the flag was previously set; in band sets
the flag and logs nothing.  Returns the new flag and the number of warning
messages logged (0 or 1). -/
def railStep (vmin vmax avg : Rat) (ok : Bool) : Bool × Nat :=
  if vmax < avg ∨ avg < vmin then (false, if ok then 1 else 0)
  else (true, 0)

/-- A sequence of managePower cycles for one rail, folding railStep over
the averaged reading of each cycle; returns the final flag and the total
number of warning messages logged. -/
def railRun (vmin vmax : Rat) (ok : Bool) : List Rat → Bool × Nat
  | [] => (ok, 0)
  | avg :: rest =>
    let s := railStep vmin vmax avg ok
    let t := railRun vmin vmax s.1 rest
    (t.1, s.2 + t.2)

/-- The averaged reading of one managePower cycle (main.cpp lines
1026-1034): ten raw samples, each scaled by the rail multiplier, summed and
divided by 10. -/
def railCycleAverage (mul : Rat) (samples : List Rat) : Rat :=
  (samples.map (fun v => v * mul)).sum / 10

/-- Thread identifiers for the interleaving model of the WallClock record:
the committing context (updateGlobalDateTime) and the reading context
(getGlobalDateTime). -/
inductive Tid where
  | writer : Tid
  | reader : Tid
deriving DecidableEq, Repr

/-- Interleaved execution state of one getGlobalDateTime call racing one
updateGlobalDateTime call: the canonical globalDateTime record in memory,
the holder of dateTimeMutex, the program counter of each call, and the
reading side out-parameter being filled by its memcpy.  The whole-record
memcpy of each call (main.cpp lines 637 and 668) is decomposed into one
step per field, in declaration order, to expose every interleaving the
mutex must exclude; pc value 0 is before the mutex acquisition, values 1-6
copy the six fields, 7 releases the mutex, 8 is after return. -/
structure ConcState where
  mem : DateTime
  mutexOwner : Option Tid
  wpc : Nat
  rpc : Nat
  snap : DateTime
deriving DecidableEq, Repr

/-- One scheduler step of the interleaving model.  dt is the value being
committed by the writer.  A thread at pc 0 acquires the free mutex or stays
blocked when the other holds it (the 100 ms timed wait of
xSemaphoreTake); pcs 1-6 copy one field of the record; pc 7 releases the
mutex (xSemaphoreGive); pc 8 is terminal. -/
def concStep (dt : DateTime) (s : ConcState) (t : Tid) : ConcState :=
  match t with
  | Tid.writer =>
    match s.wpc with
    | 0 =>
      match s.mutexOwner with
      | none => { s with mutexOwner := some Tid.writer, wpc := 1 }
      | some _ => s
    | 1 => { s with mem := { s.mem with year := dt.year }, wpc := 2 }
    | 2 => { s with mem := { s.mem with month := dt.month }, wpc := 3 }
    | 3 => { s with mem := { s.mem with day := dt.day }, wpc := 4 }
    | 4 => { s with mem := { s.mem with hour := dt.hour }, wpc := 5 }
    | 5 => { s with mem := { s.mem with minute := dt.minute }, wpc := 6 }
    | 6 => { s with mem := { s.mem with second := dt.second }, wpc := 7 }
    | 7 => { s with mutexOwner := none, wpc := 8 }
    | _ => s
  | Tid.reader =>
    match s.rpc with
    | 0 =>
      match s.mutexOwner with
      | none => { s with mutexOwner := some Tid.reader, rpc := 1 }
      | some _ => s
    | 1 => { s with snap := { s.snap with year := s.mem.year }, rpc := 2 }
    | 2 => { s with snap := { s.snap with month := s.mem.month }, rpc := 3 }
    | 3 => { s with snap := { s.snap with day := s.mem.day }, rpc := 4 }
    | 4 => { s with snap := { s.snap with hour := s.mem.hour }, rpc := 5 }
    | 5 => { s with snap := { s.snap with minute := s.mem.minute }, rpc := 6 }
    | 6 => { s with snap := { s.snap with second := s.mem.second }, rpc := 7 }
    | 7 => { s with mutexOwner := none, rpc := 8 }
    | _ => s

/-- Initial state of the interleaving model: the canonical record holds g0,
the mutex is free, both calls are before their acquisition, and the reading
side out-parameter holds the arbitrary caller residue snap0. -/
def initConc (g0 snap0 : DateTime) : ConcState :=
  { mem := g0, mutexOwner := none, wpc := 0, rpc := 0, snap := snap0 }

/-- Run of the interleaving model under a schedule: the scheduler picks
which thread steps next, in list order. -/
def runConc (dt : DateTime) (s : ConcState) : List Tid → ConcState
  | [] => s
  | t :: rest => runConc dt (concStep dt s t) rest

/-- The record whose first k fields (in declaration order) come from a and
whose remaining fields come from b: the intermediate memory contents of a
field-by-field copy of a over b that has completed k fields. -/
def mixDT (a b : DateTime) (k : Nat) : DateTime :=
  { year := if 1 ≤ k then a.year else b.year
    month := if 2 ≤ k then a.month else b.month
    day := if 3 ≤ k then a.day else b.day
    hour := if 4 ≤ k then a.hour else b.hour
    minute := if 5 ≤ k then a.minute else b.minute
    second := if 6 ≤ k then a.second else b.second }

/-- Number of fields the writer has copied into memory at a given writer
pc. -/
def wWritten (pc : Nat) : Nat :=
  if pc = 0 then 0 else if pc ≤ 7 then pc - 1 else 6

/-- Inductive invariant of the interleaving model: the pcs are in range,
the mutex owner is exactly the thread whose pc is inside its critical
section, memory is the writer mix determined by the writer pc, the reading
side buffer is untouched before acquisition, tracks a prefix of the locked
memory inside the critical section, and after release holds one of the two
whole-record values. -/
def ConcInv (g0 dt snap0 : DateTime) (s : ConcState) : Prop :=
  s.wpc ≤ 8 ∧ s.rpc ≤ 8 ∧
  (s.mutexOwner = some Tid.writer ↔ 1 ≤ s.wpc ∧ s.wpc ≤ 7) ∧
  (s.mutexOwner = some Tid.reader ↔ 1 ≤ s.rpc ∧ s.rpc ≤ 7) ∧
  s.mem = mixDT dt g0 (wWritten s.wpc) ∧
  (s.rpc = 0 → s.snap = snap0) ∧
  (1 ≤ s.rpc ∧ s.rpc ≤ 7 → s.snap = mixDT s.mem snap0 (s.rpc - 1)) ∧
  (s.rpc = 8 → s.snap = g0 ∨ s.snap = dt)

/-- A concrete NetworkConfig used to instantiate theorems on sample
inputs. -/
def sampleConfig : NetworkConfig :=
  { useDHCP := true
    ip := ⟨192, 168, 1, 100⟩
    subnet := ⟨255, 255, 255, 0⟩
    gateway := ⟨192, 168, 1, 1⟩
    dns := ⟨8, 8, 8, 8⟩
    timezone := "+13:00"
    hostname := "open-reactor"
    ntpServer := "pool.ntp.org"
    ntpEnabled := false
    dstEnabled := false
    mqttBroker := "broker.local"
    mqttPort := 1883
    mqttUsername := "orc"
    mqttPassword := "secret" }

/-- A POST /api/network request in static mode whose IP string failed to
parse while the remaining fields parsed. -/
def badIpRequest : NetworkPostRequest :=
  { hasBody := true
    jsonOk := true
    modeIsDhcp := false
    ipParse := none
    subnetParse := some ⟨255, 255, 255, 0⟩
    gatewayParse := some ⟨10, 0, 0, 1⟩
    dnsParse := some ⟨8, 8, 8, 8⟩
    hostnameField := none
    ntpField := none
    dstField := none }

/-- A POST /api/mqtt request that omits the password key. -/
def mqttNoPasswordRequest : MqttPostRequest :=
  { hasBody := true
    jsonOk := true
    mqttBroker := some "broker2.local"
    mqttPort := some 8883
    mqttUsername := some "orc2"
    mqttPassword := none }

/-- A POST /api/time request carrying a valid manual date and time and no
optional keys. -/
def sampleTimeRequest : TimePostRequest :=
  { jsonOk := true
    hasDate := true
    hasTime := true
    timezoneParse := none
    ntpEnabledReq := none
    dstEnabledReq := none
    dateParse := some (2025, 6, 1)
    timeParse := some (12, 30) }

theorem attemptMatches_eq_true_iff (readback : Nat → Option DateTime)
    (dt : DateTime) (i : Nat) :
    attemptMatches readback dt i = true ↔
      ∃ r, readback i = some r ∧ dtFieldsMatch r dt = true := by
  unfold attemptMatches
  rcases h : readback i with _ | r <;> simp

theorem rtcVerifyLoop_eq_true_iff (readback : Nat → Option DateTime)
    (dt : DateTime) (i fuel : Nat) :
    rtcVerifyLoop readback dt i fuel = true ↔
      ∃ j, j < fuel ∧ attemptMatches readback dt (i + j) = true := by
  induction fuel generalizing i with
  | zero => simp [rtcVerifyLoop]
  | succ n ih =>
    rw [rtcVerifyLoop, Bool.or_eq_true, ih (i + 1)]
    constructor
    · rintro (h | ⟨j, hj, hm⟩)
      · exact ⟨0, Nat.succ_pos n, by simpa using h⟩
      · refine ⟨j + 1, by omega, ?_⟩
        rw [show i + (j + 1) = i + 1 + j by omega]
        exact hm
    · rintro ⟨j, hj, hm⟩
      rcases j with _ | k
      · left; simpa using hm
      · right
        refine ⟨k, by omega, ?_⟩
        rw [show i + 1 + k = i + (k + 1) by omega]
        exact hm

/-- Claim C1: for a commit (updateGlobalDateTime) with the lock acquired,
if some hardware read-back within the 3 write attempts matches the
requested value field by field, the canonical in-memory record equals the
requested value afterwards and the call returns success; if no read-back
matches across the 3 attempts, the canonical record is unchanged from its
pre-call value and the call returns failure. -/
theorem C1_commit_write_verify (readback : Nat → Option DateTime)
    (dt g : DateTime) (lockOk : Bool) (hl : lockOk = true) :
    ((∃ j, j < 3 ∧ ∃ r, readback j = some r ∧ dtFieldsMatch r dt = true) →
       updateGlobalDateTime lockOk readback dt g = (dt, true)) ∧
    ((∀ j, j < 3 → ∀ r, readback j = some r → dtFieldsMatch r dt = false) →
       updateGlobalDateTime lockOk readback dt g = (g, false)) := by
  subst hl
  constructor
  · rintro ⟨j, hj, r, hr, hm⟩
    have hloop : rtcVerifyLoop readback dt 0 3 = true := by
      rw [rtcVerifyLoop_eq_true_iff]
      refine ⟨j, hj, ?_⟩
      rw [attemptMatches_eq_true_iff]
      exact ⟨r, by simpa using hr, hm⟩
    simp [updateGlobalDateTime, hloop]
  · intro hno
    have hloop : rtcVerifyLoop readback dt 0 3 = false := by
      by_contra hc
      have ht : rtcVerifyLoop readback dt 0 3 = true := by
        revert hc
        cases rtcVerifyLoop readback dt 0 3 <;> simp
      rcases (rtcVerifyLoop_eq_true_iff readback dt 0 3).1 ht with ⟨j, hj, hm⟩
      rcases (attemptMatches_eq_true_iff readback dt (0 + j)).1 hm with
        ⟨r, hr, hmm⟩
      have hfalse := hno j hj r (by simpa using hr)
      rw [hfalse] at hmm
      cases hmm
    simp [updateGlobalDateTime, hloop]

/-- Witness for C1 at a concrete input: the hardware echoes the written
value at the first attempt, so the commit succeeds and installs it. -/
theorem C1_commit_write_verify_witness :
    updateGlobalDateTime true (fun _ => some ⟨2025, 6, 1, 12, 30, 0⟩)
      ⟨2025, 6, 1, 12, 30, 0⟩ ⟨2024, 1, 1, 0, 0, 0⟩ =
      (⟨2025, 6, 1, 12, 30, 0⟩, true) :=
  (C1_commit_write_verify (fun _ => some ⟨2025, 6, 1, 12, 30, 0⟩)
      ⟨2025, 6, 1, 12, 30, 0⟩ ⟨2024, 1, 1, 0, 0, 0⟩ true rfl).1
    ⟨0, by decide, ⟨2025, 6, 1, 12, 30, 0⟩, rfl, by decide⟩

/-- Counterexample to claim C2 as stated: from the reachable disconnected
state, one loop iteration that polls the link as up while
applyNetworkConfig fails leaves ethernetConnected set to true, because
main.cpp line 833 raises the flag before calling applyNetworkConfig at
line 834 and a failure only logs an error. -/
theorem C2_counterexample :
    loopRun false [(true, false)] = true ∧
    (loopStep false true false).ethernetConnected = true ∧
    (loopStep false true false).applyCalled = true ∧
    (loopStep false true false).applyOk = false := by decide

/-- Claim C2 (amended): on a disconnected-to-connected poll the loop sets
ethernetConnected to true and then calls applyNetworkConfig regardless of
its outcome; a failed apply is only logged and the flag stays true; the
flag is cleared only when a later poll observes the link down. -/
theorem C2_link_transition (applyResult : Bool) :
    (loopStep false true applyResult).ethernetConnected = true ∧
    (loopStep false true applyResult).applyCalled = true ∧
    (loopStep false true applyResult).applyOk = applyResult ∧
    (loopStep true false applyResult).ethernetConnected = false := by
  cases applyResult <;> decide

theorem applyStaticAddresses_snd_false (req : NetworkPostRequest)
    (c : NetworkConfig)
    (hbad : req.ipParse = none ∨ req.subnetParse = none ∨
      req.gatewayParse = none ∨ req.dnsParse = none) :
    (applyStaticAddresses req c).2 = false := by
  unfold applyStaticAddresses
  rcases hip : req.ipParse with _ | ipv
  · simp
  · rcases hsn : req.subnetParse with _ | snv
    · simp
    · rcases hgw : req.gatewayParse with _ | gwv
      · simp
      · rcases hdns : req.dnsParse with _ | dnsv
        · simp
        · simp_all

/-- Counterexample to claim C3 as stated: a static-mode request whose IP
string fails to parse is rejected with HTTP 400 and the persisted record is
untouched, but the live in-memory NetworkConfig is not unchanged: the
handler already assigned useDHCP = false at main.cpp line 298, before any
address validation.  Starting from sampleConfig (a DHCP configuration), the
rejected request flips the live useDHCP flag. -/
theorem C3_counterexample :
    (networkPostHandler 165 badIpRequest sampleConfig
        (saveNetworkConfig 165 sampleConfig)).httpStatus = 400 ∧
    (networkPostHandler 165 badIpRequest sampleConfig
        (saveNetworkConfig 165 sampleConfig)).ee =
      saveNetworkConfig 165 sampleConfig ∧
    (networkPostHandler 165 badIpRequest sampleConfig
        (saveNetworkConfig 165 sampleConfig)).live.useDHCP = false ∧
    sampleConfig.useDHCP = true ∧
    (networkPostHandler 165 badIpRequest sampleConfig
        (saveNetworkConfig 165 sampleConfig)).live ≠ sampleConfig := by
  decide

/-- Claim C3 (amended): a configuration-update request with any malformed
address field in static mode is rejected with HTTP 400 before persistence
and before reboot, so the persisted record is unchanged; the live
in-memory NetworkConfig, however, may already be partially mutated (the
useDHCP flag and every address field parsed before the failing one are
overwritten before the rejection). -/
theorem C3_reject_before_persist (eeMagic : Nat) (req : NetworkPostRequest)
    (cfg : NetworkConfig) (ee : Eeprom)
    (hb : req.hasBody = true) (hj : req.jsonOk = true)
    (hm : req.modeIsDhcp = false)
    (hbad : req.ipParse = none ∨ req.subnetParse = none ∨
      req.gatewayParse = none ∨ req.dnsParse = none) :
    (networkPostHandler eeMagic req cfg ee).httpStatus = 400 ∧
    (networkPostHandler eeMagic req cfg ee).ee = ee ∧
    (networkPostHandler eeMagic req cfg ee).rebooted = false := by
  have hsnd := applyStaticAddresses_snd_false req
    { cfg with useDHCP := req.modeIsDhcp } hbad
  unfold networkPostHandler
  rcases hss : applyStaticAddresses req { cfg with useDHCP := req.modeIsDhcp }
    with ⟨c1, b⟩
  rw [hss] at hsnd
  simp only at hsnd
  subst hsnd
  rw [hm] at hss
  simp [hb, hj, hm, hss]

/-- Witness for C3 (amended) at the concrete bad-IP request. -/
theorem C3_reject_before_persist_witness :
    (networkPostHandler 165 badIpRequest sampleConfig
        (saveNetworkConfig 165 sampleConfig)).httpStatus = 400 ∧
    (networkPostHandler 165 badIpRequest sampleConfig
        (saveNetworkConfig 165 sampleConfig)).ee =
      saveNetworkConfig 165 sampleConfig ∧
    (networkPostHandler 165 badIpRequest sampleConfig
        (saveNetworkConfig 165 sampleConfig)).rebooted = false :=
  C3_reject_before_persist 165 badIpRequest sampleConfig
    (saveNetworkConfig 165 sampleConfig) rfl rfl rfl (Or.inl rfl)

/-- Counterexample to claim C4 as stated: the remote-sync path and the
periodic sampling path do not validate ranges.  An NTP response with epoch
0 is converted by epochToDateTime to year 1970, outside the claimed
2000-2099 range, and updateGlobalDateTime installs it into the canonical
record whenever the hardware echoes the write (there is no range check
anywhere in updateGlobalDateTime); likewise one manageRTC tick copies an
arbitrary out-of-range hardware value (here month 0, hour 99) into the
canonical record unconditionally. -/
theorem C4_counterexample :
    epochToDateTime 0 = ⟨1970, 1, 1, 0, 0, 0⟩ ∧
    validDT (epochToDateTime 0) = false ∧
    updateGlobalDateTime true (fun _ => some (epochToDateTime 0))
        (epochToDateTime 0) ⟨2025, 1, 1, 0, 0, 0⟩ =
      (⟨1970, 1, 1, 0, 0, 0⟩, true) ∧
    manageRTCtick (some ⟨0, 0, 0, 99, 99, 99⟩) true ⟨2025, 1, 1, 0, 0, 0⟩ =
      ⟨0, 0, 0, 99, 99, 99⟩ ∧
    validDT ⟨0, 0, 0, 99, 99, 99⟩ = false := by decide

/-- Claim C4 (amended): only the API time-set path validates the range
invariant: every DateTime it hands to updateGlobalDateTime satisfies year
2000-2099, month 1-12, day 1-31, hour 0-23, minute 0-59, second 0-59 (the
committed second is the literal 0).  The remote-sync path and the periodic
hardware-clock sampling path perform no range validation and can store
out-of-range values in the canonical record. -/
theorem C4_api_path_validates (req : TimePostRequest) (d : DateTime)
    (h : timePostHandler req = some d) : validDT d = true := by
  obtain ⟨jsonOk, hasDate, hasTime, tzP, ntpR, dstR, dateP, timeP⟩ := req
  obtain ⟨dy, dmo, ddy, dhr, dmi, dse⟩ := d
  unfold timePostHandler at h
  rcases jsonOk <;> rcases hasDate <;> rcases hasTime <;>
    rcases tzP with _ | (_ | ⟨th, tm⟩) <;>
    rcases ntpR with _ | (_ | _) <;>
    rcases dateP with _ | ⟨y, mo, dd⟩ <;>
    rcases timeP with _ | ⟨hh, mi⟩ <;>
    simp_all [validDT]
  all_goals omega

/-- Witness for C4 (amended): the sample valid manual request reaches the
commit and the committed value satisfies the range invariant. -/
theorem C4_api_path_validates_witness :
    validDT ⟨2025, 6, 1, 12, 30, 0⟩ = true :=
  C4_api_path_validates sampleTimeRequest ⟨2025, 6, 1, 12, 30, 0⟩ (by decide)

theorem u32sub_of_le (a b : Nat) (hba : b ≤ a) (ha : a < 2 ^ 32) :
    u32sub a b = a - b := by
  have h32 : (2 : Nat) ^ 32 = 4294967296 := by norm_num
  unfold u32sub
  rw [h32] at ha ⊢
  omega

theorem handleNTPUpdates_run (k : NtpConsts) (linkUp force : Bool)
    (ts now tAfter : Nat)
    (h1 : u32sub now ts > k.updateInterval ∨ force = true)
    (h2 : ¬ u32sub now ts < k.minSyncInterval) :
    handleNTPUpdates k true linkUp force ts now tAfter = (tAfter, linkUp) := by
  unfold handleNTPUpdates
  have hc : (decide (u32sub now ts > k.updateInterval) || force) = true := by
    rcases h1 with h | h <;> simp [h]
  simp [hc, h2]

theorem handleNTPUpdates_noRun (k : NtpConsts) (linkUp : Bool)
    (ts now tAfter : Nat)
    (h1 : ¬ u32sub now ts > k.updateInterval) :
    handleNTPUpdates k true linkUp false ts now tAfter = (ts, false) := by
  unfold handleNTPUpdates
  simp [h1]

theorem handleNTPUpdates_minSkip (k : NtpConsts) (linkUp force : Bool)
    (ts now tAfter : Nat)
    (h2 : u32sub now ts < k.minSyncInterval) :
    handleNTPUpdates k true linkUp force ts now tAfter = (ts, false) := by
  unfold handleNTPUpdates
  by_cases h1 : (decide (u32sub now ts > k.updateInterval) || force) = true
  · simp [h1, h2]
  · simp [h1]

/-- Counterexample to claim C5 as stated: with NTP enabled, the link down
and the update interval elapsed, the cycle performs no remote fetch, yet
the last-sync timestamp is overwritten with the current time (main.cpp
line 113 runs after ntpUpdate returns early at line 60), so the next
scheduled attempt is pushed back: the stored timestamp changes from 0 to
4000200. -/
theorem C5_counterexample :
    handleNTPUpdates ⟨3600000, 60000⟩ true false false 0 4000000 4000200 =
      (4000200, false) ∧ (4000200 : Nat) ≠ 0 := by decide

/-- Claim C5 (amended): when the remote synchronization cycle fires while
the network link is down, no remote fetch is performed, but the cycle still
counts: the last-sync timestamp is overwritten with the post-cycle time, so
the next scheduled attempt is pushed back by a full interval. -/
theorem C5_link_down_cycle (k : NtpConsts) (force : Bool)
    (ts now tAfter : Nat)
    (h1 : u32sub now ts > k.updateInterval ∨ force = true)
    (h2 : ¬ u32sub now ts < k.minSyncInterval) :
    handleNTPUpdates k true false force ts now tAfter = (tAfter, false) :=
  handleNTPUpdates_run k false force ts now tAfter h1 h2

/-- Witness for C5 (amended) at the concrete counterexample input. -/
theorem C5_link_down_cycle_witness :
    handleNTPUpdates ⟨3600000, 60000⟩ true false false 0 4000000 4000200 =
      (4000200, false) :=
  C5_link_down_cycle ⟨3600000, 60000⟩ false 0 4000000 4000200
    (Or.inl (by decide)) (by decide)

/-- Claim C6: two consecutive handleNTPUpdates invocations with force =
false separated by less than the minimum sync interval perform the remote
fetch at most once (the two cycles never both fetch), and the hard minimum
interval suppresses the fetch even when force = true. -/
theorem C6_min_interval_rate_limit (k : NtpConsts)
    (link1 link2 linkAny forceAny : Bool)
    (ts0 t1 a1 t2 a2 ts3 now3 a3 : Nat)
    (h12 : t1 ≤ a1) (h23 : a1 ≤ t2) (h2lt : t2 < 2 ^ 32)
    (hsep : t2 - t1 < k.minSyncInterval)
    (hmin3 : u32sub now3 ts3 < k.minSyncInterval) :
    ¬((handleNTPUpdates k true link1 false ts0 t1 a1).2 = true ∧
      (handleNTPUpdates k true link2 false
        (handleNTPUpdates k true link1 false ts0 t1 a1).1 t2 a2).2 = true) ∧
    (handleNTPUpdates k true linkAny forceAny ts3 now3 a3).2 = false := by
  constructor
  · rintro ⟨hf1, hf2⟩
    by_cases hb1 : u32sub t1 ts0 > k.updateInterval
    · by_cases hm1 : u32sub t1 ts0 < k.minSyncInterval
      · rw [handleNTPUpdates_minSkip k link1 false ts0 t1 a1 hm1] at hf1
        simp at hf1
      · have hr1 := handleNTPUpdates_run k link1 false ts0 t1 a1
          (Or.inl hb1) hm1
        rw [hr1] at hf2
        have he2 : u32sub t2 a1 = t2 - a1 :=
          u32sub_of_le t2 a1 (by omega) h2lt
        have hm2 : u32sub t2 a1 < k.minSyncInterval := by omega
        rw [handleNTPUpdates_minSkip k link2 false a1 t2 a2 hm2] at hf2
        simp at hf2
    · rw [handleNTPUpdates_noRun k link1 ts0 t1 a1 hb1] at hf1
      simp at hf1
  · rw [handleNTPUpdates_minSkip k linkAny forceAny ts3 now3 a3 hmin3]

/-- Witness for C6 at concrete inputs: two calls 20 seconds apart under a
60 second minimum interval, and a forced call 50 seconds after the last
sync. -/
theorem C6_min_interval_rate_limit_witness :
    ¬((handleNTPUpdates ⟨3600000, 60000⟩ true true false 0 3700000
          3700100).2 = true ∧
      (handleNTPUpdates ⟨3600000, 60000⟩ true true false
        (handleNTPUpdates ⟨3600000, 60000⟩ true true false 0 3700000
          3700100).1 3720000 3720200).2 = true) ∧
    (handleNTPUpdates ⟨3600000, 60000⟩ true true true 0 50000 50100).2 =
      false :=
  C6_min_interval_rate_limit ⟨3600000, 60000⟩ true true true true
    0 3700000 3700100 3720000 3720200 0 50000 50100
    (by decide) (by decide) (by decide) (by decide) (by decide)

/-- Claim C7: whenever the stored guard byte differs from the expected
magic constant (including first boot), the load reports no valid
configuration, and the startup phase installs the in-memory defaults and
immediately persists them, so afterwards the stored record equals the live
record and the guard byte is set. -/
theorem C7_magic_mismatch_defaults (eeMagic : Nat) (ee : Eeprom)
    (live : NetworkConfig) (h : ee.magic ≠ eeMagic) :
    loadNetworkConfig eeMagic ee = none ∧
    (setupEthernetConfigPhase eeMagic ee live).1 = defaultNetworkConfig live ∧
    (setupEthernetConfigPhase eeMagic ee live).2.stored =
      (setupEthernetConfigPhase eeMagic ee live).1 ∧
    (setupEthernetConfigPhase eeMagic ee live).2.magic = eeMagic := by
  have hl : loadNetworkConfig eeMagic ee = none := by
    unfold loadNetworkConfig
    simp [h]
  refine ⟨hl, ?_, ?_, ?_⟩ <;>
    simp [setupEthernetConfigPhase, hl, saveNetworkConfig]

/-- Witness for C7: a first-boot EEPROM image whose guard byte is 0 while
the expected constant is 165. -/
theorem C7_magic_mismatch_defaults_witness :
    loadNetworkConfig 165 ⟨0, sampleConfig⟩ = none ∧
    (setupEthernetConfigPhase 165 ⟨0, sampleConfig⟩ sampleConfig).1 =
      defaultNetworkConfig sampleConfig ∧
    (setupEthernetConfigPhase 165 ⟨0, sampleConfig⟩ sampleConfig).2.stored =
      (setupEthernetConfigPhase 165 ⟨0, sampleConfig⟩ sampleConfig).1 ∧
    (setupEthernetConfigPhase 165 ⟨0, sampleConfig⟩ sampleConfig).2.magic =
      165 :=
  C7_magic_mismatch_defaults 165 ⟨0, sampleConfig⟩ sampleConfig (by decide)

theorem railRun_false_all_out (vmin vmax : Rat) (avgs : List Rat)
    (hall : ∀ a ∈ avgs, vmax < a ∨ a < vmin) :
    railRun vmin vmax false avgs = (false, 0) := by
  induction avgs with
  | nil => rfl
  | cons a rest ih =>
    have ha := hall a (by simp)
    rw [railRun, railStep, if_pos ha]
    rw [ih (fun b hb => hall b (by simp [hb]))]
    simp

/-- Claim C8: starting with the health flag true, a nonempty sequence of
sampling cycles whose averaged values all fall outside the [vmin, vmax]
band produces exactly one out-of-range log message, emitted at the cycle of
the true-to-false transition, and none on the later still-out-of-band
cycles; the flag ends false. -/
theorem C8_single_transition_log (vmin vmax mul : Rat)
    (cycles : List (List Rat)) (hne : cycles ≠ [])
    (hall : ∀ c ∈ cycles, vmax < railCycleAverage mul c ∨
      railCycleAverage mul c < vmin) :
    railRun vmin vmax true (cycles.map (railCycleAverage mul)) =
      (false, 1) := by
  rcases cycles with _ | ⟨c, rest⟩
  · exact absurd rfl hne
  · have hc := hall c (by simp)
    rw [List.map_cons, railRun, railStep, if_pos hc]
    rw [railRun_false_all_out vmin vmax (rest.map (railCycleAverage mul))
      (by
        intro a ha
        rcases List.mem_map.1 ha with ⟨c2, hc2, rfl⟩
        exact hall c2 (by simp [hc2]))]
    simp

/-- Witness for C8: a rail with band [22, 26] and multiplier 1, sampled in
six consecutive cycles of ten samples each averaging 29, logs exactly one
warning. -/
theorem C8_single_transition_log_witness :
    railRun 22 26 true
      ((List.replicate 6 (List.replicate 10 (29 : Rat))).map
        (railCycleAverage 1)) = (false, 1) :=
  C8_single_transition_log 22 26 1
    (List.replicate 6 (List.replicate 10 (29 : Rat)))
    (by decide)
    (by
      intro c hc
      rw [List.eq_of_mem_replicate hc]
      left
      norm_num [railCycleAverage, List.map_replicate, List.sum_replicate])

/-- Claim C10: an MQTT configuration-update request whose password field is
absent or empty is accepted with HTTP 200, updates broker, port and
username, persists the result, and leaves the stored mqttPassword exactly
as it was before the request. -/
theorem C10_password_unchanged (eeMagic : Nat) (req : MqttPostRequest)
    (cfg : NetworkConfig) (ee : Eeprom)
    (hb : req.hasBody = true) (hj : req.jsonOk = true)
    (hpw : req.mqttPassword = none ∨ req.mqttPassword = some "") :
    (mqttPostHandler eeMagic req cfg ee).httpStatus = 200 ∧
    (mqttPostHandler eeMagic req cfg ee).live.mqttPassword =
      cfg.mqttPassword ∧
    (mqttPostHandler eeMagic req cfg ee).live.mqttBroker =
      req.mqttBroker.getD "" ∧
    (mqttPostHandler eeMagic req cfg ee).live.mqttPort =
      req.mqttPort.getD 1883 ∧
    (mqttPostHandler eeMagic req cfg ee).live.mqttUsername =
      req.mqttUsername.getD "" ∧
    (mqttPostHandler eeMagic req cfg ee).ee =
      saveNetworkConfig eeMagic (mqttPostHandler eeMagic req cfg ee).live := by
  unfold mqttPostHandler
  rcases hpw with h | h <;> simp [hb, hj, h, saveNetworkConfig]

/-- Witness for C10 at a concrete request omitting the password key. -/
theorem C10_password_unchanged_witness :
    (mqttPostHandler 165 mqttNoPasswordRequest sampleConfig
        (saveNetworkConfig 165 sampleConfig)).httpStatus = 200 ∧
    (mqttPostHandler 165 mqttNoPasswordRequest sampleConfig
        (saveNetworkConfig 165 sampleConfig)).live.mqttPassword =
      sampleConfig.mqttPassword ∧
    (mqttPostHandler 165 mqttNoPasswordRequest sampleConfig
        (saveNetworkConfig 165 sampleConfig)).live.mqttBroker =
      mqttNoPasswordRequest.mqttBroker.getD "" ∧
    (mqttPostHandler 165 mqttNoPasswordRequest sampleConfig
        (saveNetworkConfig 165 sampleConfig)).live.mqttPort =
      mqttNoPasswordRequest.mqttPort.getD 1883 ∧
    (mqttPostHandler 165 mqttNoPasswordRequest sampleConfig
        (saveNetworkConfig 165 sampleConfig)).live.mqttUsername =
      mqttNoPasswordRequest.mqttUsername.getD "" ∧
    (mqttPostHandler 165 mqttNoPasswordRequest sampleConfig
        (saveNetworkConfig 165 sampleConfig)).ee =
      saveNetworkConfig 165
        (mqttPostHandler 165 mqttNoPasswordRequest sampleConfig
          (saveNetworkConfig 165 sampleConfig)).live :=
  C10_password_unchanged 165 mqttNoPasswordRequest sampleConfig
    (saveNetworkConfig 165 sampleConfig) rfl rfl (Or.inl rfl)

theorem concStep_preserves (g0 dt snap0 : DateTime) (s : ConcState)
    (t : Tid) (h : ConcInv g0 dt snap0 s) :
    ConcInv g0 dt snap0 (concStep dt s t) := by
  obtain ⟨hw8, hr8, hmw, hmr, hmem, hs0, hmid, hdone⟩ := h
  rcases s with ⟨mem, owner, wpc, rpc, snap⟩
  simp only at hw8 hr8 hmw hmr hmem hs0 hmid hdone
  cases t
  case writer =>
    interval_cases wpc
    · rcases owner with _ | tid
      · simp only [concStep]
        have hnr : ¬(1 ≤ rpc ∧ rpc ≤ 7) := by
          intro hh
          have hx := hmr.2 hh
          simp at hx
        exact ⟨by simp, hr8, by simp, by simp [hnr], hmem, hs0, hmid, hdone⟩
      · simp only [concStep]
        exact ⟨by simp, hr8, hmw, hmr, hmem, hs0, hmid, hdone⟩
    · simp only [concStep]
      have how : owner = some Tid.writer := hmw.2 ⟨by omega, by omega⟩
      have hnr : ¬(1 ≤ rpc ∧ rpc ≤ 7) := by
        intro hh
        have hx := hmr.2 hh
        rw [how] at hx
        simp at hx
      refine ⟨by simp, hr8, ?_, ?_, ?_, hs0, ?_, hdone⟩
      · rw [how]; simp
      · rw [how]; simp [hnr]
      · rw [hmem]; rfl
      · exact fun hh => absurd hh hnr
    · simp only [concStep]
      have how : owner = some Tid.writer := hmw.2 ⟨by omega, by omega⟩
      have hnr : ¬(1 ≤ rpc ∧ rpc ≤ 7) := by
        intro hh
        have hx := hmr.2 hh
        rw [how] at hx
        simp at hx
      refine ⟨by simp, hr8, ?_, ?_, ?_, hs0, ?_, hdone⟩
      · rw [how]; simp
      · rw [how]; simp [hnr]
      · rw [hmem]; rfl
      · exact fun hh => absurd hh hnr
    · simp only [concStep]
      have how : owner = some Tid.writer := hmw.2 ⟨by omega, by omega⟩
      have hnr : ¬(1 ≤ rpc ∧ rpc ≤ 7) := by
        intro hh
        have hx := hmr.2 hh
        rw [how] at hx
        simp at hx
      refine ⟨by simp, hr8, ?_, ?_, ?_, hs0, ?_, hdone⟩
      · rw [how]; simp
      · rw [how]; simp [hnr]
      · rw [hmem]; rfl
      · exact fun hh => absurd hh hnr
    · simp only [concStep]
      have how : owner = some Tid.writer := hmw.2 ⟨by omega, by omega⟩
      have hnr : ¬(1 ≤ rpc ∧ rpc ≤ 7) := by
        intro hh
        have hx := hmr.2 hh
        rw [how] at hx
        simp at hx
      refine ⟨by simp, hr8, ?_, ?_, ?_, hs0, ?_, hdone⟩
      · rw [how]; simp
      · rw [how]; simp [hnr]
      · rw [hmem]; rfl
      · exact fun hh => absurd hh hnr
    · simp only [concStep]
      have how : owner = some Tid.writer := hmw.2 ⟨by omega, by omega⟩
      have hnr : ¬(1 ≤ rpc ∧ rpc ≤ 7) := by
        intro hh
        have hx := hmr.2 hh
        rw [how] at hx
        simp at hx
      refine ⟨by simp, hr8, ?_, ?_, ?_, hs0, ?_, hdone⟩
      · rw [how]; simp
      · rw [how]; simp [hnr]
      · rw [hmem]; rfl
      · exact fun hh => absurd hh hnr
    · simp only [concStep]
      have how : owner = some Tid.writer := hmw.2 ⟨by omega, by omega⟩
      have hnr : ¬(1 ≤ rpc ∧ rpc ≤ 7) := by
        intro hh
        have hx := hmr.2 hh
        rw [how] at hx
        simp at hx
      refine ⟨by simp, hr8, ?_, ?_, ?_, hs0, ?_, hdone⟩
      · rw [how]; simp
      · rw [how]; simp [hnr]
      · rw [hmem]; rfl
      · exact fun hh => absurd hh hnr
    · simp only [concStep]
      have how : owner = some Tid.writer := hmw.2 ⟨by omega, by omega⟩
      have hnr : ¬(1 ≤ rpc ∧ rpc ≤ 7) := by
        intro hh
        have hx := hmr.2 hh
        rw [how] at hx
        simp at hx
      refine ⟨by simp, hr8, by simp, by simp [hnr], hmem, hs0, ?_, hdone⟩
      exact fun hh => absurd hh hnr
    · simp only [concStep]
      exact ⟨by simp, hr8, hmw, hmr, hmem, hs0, hmid, hdone⟩
  case reader =>
    interval_cases rpc
    · rcases owner with _ | tid
      · simp only [concStep]
        have hnw : ¬(1 ≤ wpc ∧ wpc ≤ 7) := by
          intro hh
          have hx := hmw.2 hh
          simp at hx
        have hsnap := hs0 rfl
        refine ⟨hw8, by simp, by simp [hnw], by simp, hmem, ?_, ?_, ?_⟩
        · exact fun hh => absurd hh (by simp)
        · intro hh
          rw [hsnap]
          rfl
        · exact fun hh => absurd hh (by simp)
      · simp only [concStep]
        exact ⟨hw8, by simp, hmw, hmr, hmem, hs0, hmid, hdone⟩
    · simp only [concStep]
      have hor : owner = some Tid.reader := hmr.2 ⟨by omega, by omega⟩
      have hnw : ¬(1 ≤ wpc ∧ wpc ≤ 7) := by
        intro hh
        have hx := hmw.2 hh
        rw [hor] at hx
        simp at hx
      have hsnap := hmid ⟨by omega, by omega⟩
      refine ⟨hw8, by simp, ?_, ?_, hmem, ?_, ?_, ?_⟩
      · rw [hor]; simp [hnw]
      · rw [hor]; simp
      · exact fun hh => absurd hh (by simp)
      · intro hh
        rw [hsnap]
        rfl
      · exact fun hh => absurd hh (by simp)
    · simp only [concStep]
      have hor : owner = some Tid.reader := hmr.2 ⟨by omega, by omega⟩
      have hnw : ¬(1 ≤ wpc ∧ wpc ≤ 7) := by
        intro hh
        have hx := hmw.2 hh
        rw [hor] at hx
        simp at hx
      have hsnap := hmid ⟨by omega, by omega⟩
      refine ⟨hw8, by simp, ?_, ?_, hmem, ?_, ?_, ?_⟩
      · rw [hor]; simp [hnw]
      · rw [hor]; simp
      · exact fun hh => absurd hh (by simp)
      · intro hh
        rw [hsnap]
        rfl
      · exact fun hh => absurd hh (by simp)
    · simp only [concStep]
      have hor : owner = some Tid.reader := hmr.2 ⟨by omega, by omega⟩
      have hnw : ¬(1 ≤ wpc ∧ wpc ≤ 7) := by
        intro hh
        have hx := hmw.2 hh
        rw [hor] at hx
        simp at hx
      have hsnap := hmid ⟨by omega, by omega⟩
      refine ⟨hw8, by simp, ?_, ?_, hmem, ?_, ?_, ?_⟩
      · rw [hor]; simp [hnw]
      · rw [hor]; simp
      · exact fun hh => absurd hh (by simp)
      · intro hh
        rw [hsnap]
        rfl
      · exact fun hh => absurd hh (by simp)
    · simp only [concStep]
      have hor : owner = some Tid.reader := hmr.2 ⟨by omega, by omega⟩
      have hnw : ¬(1 ≤ wpc ∧ wpc ≤ 7) := by
        intro hh
        have hx := hmw.2 hh
        rw [hor] at hx
        simp at hx
      have hsnap := hmid ⟨by omega, by omega⟩
      refine ⟨hw8, by simp, ?_, ?_, hmem, ?_, ?_, ?_⟩
      · rw [hor]; simp [hnw]
      · rw [hor]; simp
      · exact fun hh => absurd hh (by simp)
      · intro hh
        rw [hsnap]
        rfl
      · exact fun hh => absurd hh (by simp)
    · simp only [concStep]
      have hor : owner = some Tid.reader := hmr.2 ⟨by omega, by omega⟩
      have hnw : ¬(1 ≤ wpc ∧ wpc ≤ 7) := by
        intro hh
        have hx := hmw.2 hh
        rw [hor] at hx
        simp at hx
      have hsnap := hmid ⟨by omega, by omega⟩
      refine ⟨hw8, by simp, ?_, ?_, hmem, ?_, ?_, ?_⟩
      · rw [hor]; simp [hnw]
      · rw [hor]; simp
      · exact fun hh => absurd hh (by simp)
      · intro hh
        rw [hsnap]
        rfl
      · exact fun hh => absurd hh (by simp)
    · simp only [concStep]
      have hor : owner = some Tid.reader := hmr.2 ⟨by omega, by omega⟩
      have hnw : ¬(1 ≤ wpc ∧ wpc ≤ 7) := by
        intro hh
        have hx := hmw.2 hh
        rw [hor] at hx
        simp at hx
      have hsnap := hmid ⟨by omega, by omega⟩
      refine ⟨hw8, by simp, ?_, ?_, hmem, ?_, ?_, ?_⟩
      · rw [hor]; simp [hnw]
      · rw [hor]; simp
      · exact fun hh => absurd hh (by simp)
      · intro hh
        rw [hsnap]
        rfl
      · exact fun hh => absurd hh (by simp)
    · simp only [concStep]
      have hor : owner = some Tid.reader := hmr.2 ⟨by omega, by omega⟩
      have hnw : ¬(1 ≤ wpc ∧ wpc ≤ 7) := by
        intro hh
        have hx := hmw.2 hh
        rw [hor] at hx
        simp at hx
      have hsnap := hmid ⟨by omega, by omega⟩
      have hsm : snap = mem := by
        rw [hsnap]
        rfl
      refine ⟨hw8, by simp, by simp [hnw], by simp, hmem, ?_, ?_, ?_⟩
      · exact fun hh => absurd hh (by simp)
      · exact fun hh => absurd hh (by simp)
      · intro hh2
        have hcases : wpc = 0 ∨ wpc = 8 := by omega
        rcases hcases with h0 | h8
        · left
          rw [hsm, hmem, h0]
          rfl
        · right
          rw [hsm, hmem, h8]
          rfl
    · simp only [concStep]
      exact ⟨hw8, by simp, hmw, hmr, hmem, hs0, hmid, hdone⟩

theorem runConc_preserves (g0 dt snap0 : DateTime) (sched : List Tid)
    (s : ConcState) (h : ConcInv g0 dt snap0 s) :
    ConcInv g0 dt snap0 (runConc dt s sched) := by
  induction sched generalizing s with
  | nil => exact h
  | cons t rest ih => exact ih (concStep dt s t) (concStep_preserves g0 dt snap0 s t h)

theorem initConc_inv (g0 dt snap0 : DateTime) :
    ConcInv g0 dt snap0 (initConc g0 snap0) := by
  refine ⟨by simp [initConc], by simp [initConc], by simp [initConc],
    by simp [initConc], rfl, fun _ => rfl, ?_, ?_⟩
  · intro hh
    simp [initConc] at hh
  · intro hh
    simp [initConc] at hh

/-- Claim C9: under every interleaving of one getGlobalDateTime call with
one updateGlobalDateTime call committing dt over an initial canonical value
g0, a read that has completed its whole-record copy observes either g0 or
dt in its entirety, never a record mixing fields of the two: the mutex
makes the whole-record copies mutually exclusive. -/
theorem C9_no_torn_read (g0 dt snap0 : DateTime) (sched : List Tid)
    (h : (runConc dt (initConc g0 snap0) sched).rpc = 8) :
    (runConc dt (initConc g0 snap0) sched).snap = g0 ∨
    (runConc dt (initConc g0 snap0) sched).snap = dt := by
  have hinv := runConc_preserves g0 dt snap0 sched (initConc g0 snap0)
    (initConc_inv g0 dt snap0)
  exact hinv.2.2.2.2.2.2.2 h

/-- Witness for C9: a schedule in which the writer is scheduled first but
blocked (reader holds the mutex), the reader completes its copy, and the
writer then commits; the completed read observes the whole initial
record. -/
theorem C9_no_torn_read_witness :
    (runConc ⟨2025, 6, 1, 12, 30, 0⟩
      (initConc ⟨2024, 1, 1, 0, 0, 0⟩ ⟨0, 0, 0, 0, 0, 0⟩)
      [Tid.reader, Tid.writer, Tid.reader, Tid.reader, Tid.reader,
       Tid.reader, Tid.reader, Tid.reader, Tid.reader, Tid.writer,
       Tid.writer, Tid.writer, Tid.writer, Tid.writer, Tid.writer,
       Tid.writer, Tid.writer]).snap = ⟨2024, 1, 1, 0, 0, 0⟩ ∨
    (runConc ⟨2025, 6, 1, 12, 30, 0⟩
      (initConc ⟨2024, 1, 1, 0, 0, 0⟩ ⟨0, 0, 0, 0, 0, 0⟩)
      [Tid.reader, Tid.writer, Tid.reader, Tid.reader, Tid.reader,
       Tid.reader, Tid.reader, Tid.reader, Tid.reader, Tid.writer,
       Tid.writer, Tid.writer, Tid.writer, Tid.writer, Tid.writer,
       Tid.writer, Tid.writer]).snap = ⟨2025, 6, 1, 12, 30, 0⟩ :=
  C9_no_torn_read ⟨2024, 1, 1, 0, 0, 0⟩ ⟨2025, 6, 1, 12, 30, 0⟩
    ⟨0, 0, 0, 0, 0, 0⟩
    [Tid.reader, Tid.writer, Tid.reader, Tid.reader, Tid.reader,
     Tid.reader, Tid.reader, Tid.reader, Tid.reader, Tid.writer,
     Tid.writer, Tid.writer, Tid.writer, Tid.writer, Tid.writer,
     Tid.writer, Tid.writer] (by decide)


end ORC
